import Mathlib

/-!
Verification of the ai-reply browser extension subsystem: response parsing,
fallback suggestions, the typing/insertion engine, platform-adapter injection,
context extraction, popup positioning and the popup controller.

Text is modelled as lists of characters (`Str`); DOM elements and the random
source are explicit parameters, so every definition is executable.
-/

namespace AiReply

/-- Character lists model JavaScript strings. -/
abbrev Str := List Char

/-- JS whitespace class used by trim and regex \s (ASCII fragment). -/
def isWs (c : Char) : Bool := c.isWhitespace

/-- JS String.prototype.trim: drop whitespace from both ends. -/
def strTrim (s : Str) : Str :=
  ((s.dropWhile isWs).reverse.dropWhile isWs).reverse

/-- A double or single quote character, as in the regex class ["'] of api.js. -/
def isQuote (c : Char) : Bool := (c == '"') || (c == '\'')

/-- api.js parseResponse: suggestion.replace(/^["']|["']$/g, QUOTE), i.e. remove
one leading quote character and one trailing quote character. -/
def stripQuotes (s : Str) : Str :=
  let s1 := match s with
    | [] => []
    | c :: cs => if isQuote c then cs else c :: cs
  match s1.getLast? with
  | none => s1
  | some c => if isQuote c then s1.dropLast else s1

/-- The capture group of /^\d+\.\s*(.+)/ applied to the text after the dot:
the greedy \s* backtracks so that (.+) keeps at least one character. -/
def captureAfterDot (rest : Str) : Option Str :=
  match rest with
  | [] => none
  | _ :: _ =>
    let stripped := rest.dropWhile isWs
    if stripped.isEmpty then some (rest.drop (rest.length - 1)) else some stripped

/-- line.match(/^\d+\.\s*(.+)/) from api.js parseResponse, returning the
capture group when the line starts with digits followed by a dot. -/
def matchNumbered (line : Str) : Option Str :=
  let ds := line.takeWhile Char.isDigit
  if ds.isEmpty then none
  else
    match line.drop ds.length with
    | '.' :: rest => captureAfterDot rest
    | _ => none

/-- The push loop over lines in api.js parseResponse (numbered branch). -/
def numberedLoop (lines : List Str) (acc : List Str) : List Str :=
  match lines with
  | [] => acc
  | line :: rest =>
    match matchNumbered line with
    | some m => numberedLoop rest (acc ++ [stripQuotes (strTrim m)])
    | none => numberedLoop rest acc

/-- One-pass scanner for content.split(/\n\n+/): `cur` is the current part in
reverse, `pending` counts newlines seen since the last ordinary character.
A maximal run of two or more newlines is a separator (the regex is greedy);
a single newline stays inside the part. -/
def splitParasGo : Str → Str → ℕ → List Str
  | [], cur, pending =>
      if 2 ≤ pending then [cur.reverse, []]
      else [(List.replicate pending '\n' ++ cur).reverse]
  | c :: rest, cur, pending =>
      if c = '\n' then splitParasGo rest cur (pending + 1)
      else if 2 ≤ pending then cur.reverse :: splitParasGo rest [c] 0
      else splitParasGo rest (c :: (List.replicate pending '\n' ++ cur)) 0

/-- content.split(/\n\n+/) from api.js parseResponse (fallback branch). -/
def splitParas (content : Str) : List Str :=
  splitParasGo content [] 0

/-- The push loop over paragraph parts in api.js parseResponse: keep a cleaned
part only when it is nonempty and longer than 5 characters. -/
def paraLoop (parts : List Str) (acc : List Str) : List Str :=
  match parts with
  | [] => acc
  | part :: rest =>
    if (stripQuotes (strTrim part)).isEmpty = false ∧ 5 < (stripQuotes (strTrim part)).length
    then paraLoop rest (acc ++ [stripQuotes (strTrim part)])
    else paraLoop rest acc

/-- API_CONFIG.SUGGESTIONS_COUNT from constants.js. -/
def SUGGESTIONS_COUNT : ℕ := 3

/-- ApiService.parseResponse from api.js on character lists: filter lines with
nonempty trim, collect numbered matches with quotes stripped; if none, fall
back to blank-line paragraphs of length greater than 5; keep the first 3. -/
def parseResponseCore (content : Str) : List Str :=
  let lines := (content.splitOn '\n').filter (fun l => !(strTrim l).isEmpty)
  let suggestions := numberedLoop lines []
  let suggestions :=
    if suggestions.isEmpty then paraLoop (splitParas content) [] else suggestions
  suggestions.take SUGGESTIONS_COUNT

/-- ApiService.parseResponse on Lean strings. -/
def parseResponse (content : String) : List String :=
  (parseResponseCore content.data).map String.mk

/-- Specification-side view of the numbered branch: the suggestions produced
by the numbered-line scan, in line order, before the take. -/
def numberedSuggestions (content : Str) : List Str :=
  ((content.splitOn '\n').filter (fun l => !(strTrim l).isEmpty)).filterMap
    (fun line => (matchNumbered line).map (fun m => stripQuotes (strTrim m)))

/-- Specification-side view of the paragraph fallback branch. -/
def paraSuggestions (content : Str) : List Str :=
  (splitParas content).filterMap (fun part =>
    if (stripQuotes (strTrim part)).isEmpty = false ∧ 5 < (stripQuotes (strTrim part)).length
    then some (stripQuotes (strTrim part)) else none)

/-- The context record assembled by the platform adapters. -/
structure ReplyContext where
  platform : String
  postTitle : Option Str := none
  postDescription : Option Str := none
  postCaption : Option Str := none
  postAuthor : Option Str := none
  originalComment : Option Str := none
  deriving DecidableEq

/-- The own properties of the tone-keyed fallbacks object literal in
ApiService.getFallbackSuggestions (prototype-chain members are modelled
separately in fallbackLookup). -/
def fallbackTable (tone : String) : Option (List String) :=
  if tone = "auto" then some
    ["Thanks for sharing this perspective!",
     "This is really insightful, appreciate you posting.",
     "Interesting point - I hadn't thought about it that way."]
  else if tone = "friendly" then some
    ["Love this! Thanks for brightening my feed.",
     "This made my day! Really appreciate you sharing.",
     "So glad I came across this - thanks for posting!"]
  else if tone = "humorous" then some
    ["This is the content I signed up for!",
     "Okay, this actually made me laugh out loud.",
     "My scrolling has finally paid off!"]
  else if tone = "engaging" then some
    ["This is fascinating - what inspired you to share this?",
     "I'd love to hear more about your thoughts on this!",
     "Really interesting perspective! Have you explored this further?"]
  else none

/-- ApiService.getFallbackSuggestions restricted to tone strings that are not
member names of Object.prototype: for these, fallbacks[tone] sees only the
literal's own properties, and the or-else falls through to the auto list.
The controller only ever passes such tones (the tone selector's four ids or a
persisted setting); the unrestricted bracket-lookup semantics, which can also
hit inherited members, is getFallbackSuggestionsJs below. The context argument
is accepted but unused, as in the source. -/
def getFallbackSuggestions (context : ReplyContext) (tone : String) : List String :=
  match fallbackTable tone with
  | some l => l
  | none => (fallbackTable "auto").getD []

/-- The member names a string-keyed bracket lookup on an object literal can
hit on the prototype chain (Object.prototype). -/
def objectPrototypeKeys : List String :=
  ["constructor", "hasOwnProperty", "isPrototypeOf", "propertyIsEnumerable",
   "toLocaleString", "toString", "valueOf", "__proto__",
   "__defineGetter__", "__defineSetter__", "__lookupGetter__", "__lookupSetter__"]

/-- The value a JS bracket lookup on the fallbacks literal can produce: an own
array-of-strings property, a truthy member inherited from Object.prototype
(for example fallbacks["toString"]), or undefined. -/
inductive JsValue where
  | strings (l : List String)
  | inherited (name : String)
  | undef
  deriving DecidableEq

/-- fallbacks[tone] with full JS property-lookup semantics: own properties
first, then the prototype chain, else undefined. -/
def fallbackLookup (tone : String) : JsValue :=
  match fallbackTable tone with
  | some l => JsValue.strings l
  | none =>
    if tone ∈ objectPrototypeKeys then JsValue.inherited tone else JsValue.undef

/-- JS truthiness of a looked-up value: arrays and inherited functions are
truthy, undefined is falsy. -/
def jsValueTruthy : JsValue → Bool
  | JsValue.undef => false
  | JsValue.strings _ => true
  | JsValue.inherited _ => true

/-- ApiService.getFallbackSuggestions with the unrestricted bracket-lookup
semantics: fallbacks[tone] || fallbacks[TONES.AUTO]. -/
def getFallbackSuggestionsJs (context : ReplyContext) (tone : String) : JsValue :=
  if jsValueTruthy (fallbackLookup tone) then fallbackLookup tone
  else fallbackLookup "auto"

/-- Synthetic notifications dispatched by typing.js: keyboard events carry the
typed character, the input event carries it as data inside dispatchKeyEvents
but is a plain payload-free Event elsewhere. -/
inductive Ev where
  | keydown (c : Char)
  | keypress (c : Char)
  | inputData (c : Char)
  | inputPlain
  | keyup (c : Char)
  | change
  deriving DecidableEq

/-- A target surface as the typing engine observes it: tag name, the two
contenteditable indicators, the current value and text content, whether the
prototype exposes a native value setter, and whether DOM operations on it
(event dispatch, node insertion, editing commands) throw. -/
structure Elem where
  tagName : String
  contentEditableProp : Bool
  contenteditableAttr : Option String
  value : Str
  textContent : Str
  hasNativeSetter : Bool
  broken : Bool
  deriving DecidableEq

/-- Element plus the chronological list of dispatched events and the sleep
durations awaited so far. -/
structure DomState where
  el : Elem
  events : List Ev
  delays : List ℤ
  deriving DecidableEq

/-- element.dispatchEvent: records the event, or throws on a broken surface. -/
def dispatchEvent (ev : Ev) (st : DomState) : Except String DomState :=
  if st.el.broken then Except.error "dispatch failed"
  else Except.ok { st with events := st.events ++ [ev] }

/-- getRandomDelay from typing.js: Math.floor(Math.random() * (max - min + 1))
plus min, with the random draw r from [0, 1) made explicit. -/
def getRandomDelay (mn mx : ℤ) (r : ℚ) : ℤ :=
  ⌊r * ((mx - mn + 1 : ℤ) : ℚ)⌋ + mn

/-- dispatchKeyEvents from typing.js: keydown, keypress, input-with-data and
keyup for one character, in that order. -/
def dispatchKeyEvents (c : Char) (st : DomState) : Except String DomState := do
  let st ← dispatchEvent (Ev.keydown c) st
  let st ← dispatchEvent (Ev.keypress c) st
  let st ← dispatchEvent (Ev.inputData c) st
  dispatchEvent (Ev.keyup c) st

/-- Value assignment in typeIntoInput: via the native prototype setter when
one was found, by plain property assignment otherwise; both store the value. -/
def setElemValue (v : Str) (st : DomState) : DomState :=
  if st.el.hasNativeSetter then { st with el := { st.el with value := v } }
  else { st with el := { st.el with value := v } }

/-- await sleep(d): the awaited duration is recorded on the trace. -/
def sleepDelay (d : ℤ) (st : DomState) : DomState :=
  { st with delays := st.delays ++ [d] }

/-- The for-of loop of typeIntoInput in simulated mode: append the character
to the current value, dispatch the key events, then sleep a random delay
drawn from [max 10 (speed - 20), speed + 30]. -/
def typeIntoInputLoop (speed : ℤ) (rand : ℕ → ℚ) :
    List Char → ℕ → DomState → Except String DomState
  | [], _, st => Except.ok st
  | c :: cs, i, st => do
    let st := setElemValue (st.el.value ++ [c]) st
    let st ← dispatchKeyEvents c st
    let st := sleepDelay (getRandomDelay (max 10 (speed - 20)) (speed + 30) (rand i)) st
    typeIntoInputLoop speed rand cs (i + 1) st

/-- typeIntoInput from typing.js. Direct mode assigns the whole string and
dispatches one input and one change event; simulated mode types character by
character and dispatches one final change event. -/
def typeIntoInput (text : Str) (simulate : Bool) (speed : ℤ) (rand : ℕ → ℚ)
    (st : DomState) : Except String DomState :=
  if simulate = false then do
    let st := setElemValue text st
    let st ← dispatchEvent Ev.inputPlain st
    dispatchEvent Ev.change st
  else do
    let st ← typeIntoInputLoop speed rand text 0 st
    dispatchEvent Ev.change st

/-- Creating a text node for one character and inserting it at the caret,
which typeIntoContentEditable keeps at the end of the content. -/
def insertTextNode (c : Char) (st : DomState) : Except String DomState :=
  if st.el.broken then Except.error "insertNode failed"
  else Except.ok { st with el := { st.el with textContent := st.el.textContent ++ [c] } }

/-- The for-of loop of typeIntoContentEditable in simulated mode. -/
def typeIntoCELoop (speed : ℤ) (rand : ℕ → ℚ) :
    List Char → ℕ → DomState → Except String DomState
  | [], _, st => Except.ok st
  | c :: cs, i, st => do
    let st ← insertTextNode c st
    let st ← dispatchKeyEvents c st
    let st := sleepDelay (getRandomDelay (max 10 (speed - 20)) (speed + 30) (rand i)) st
    typeIntoCELoop speed rand cs (i + 1) st

/-- typeIntoContentEditable from typing.js. Direct mode assigns textContent
and dispatches a single input event (the selection moves, with no further
events); simulated mode inserts text nodes character by character and ends
with a single input event. -/
def typeIntoContentEditable (text : Str) (simulate : Bool) (speed : ℤ)
    (rand : ℕ → ℚ) (st : DomState) : Except String DomState :=
  if simulate = false then do
    let st := { st with el := { st.el with textContent := text } }
    dispatchEvent Ev.inputPlain st
  else do
    let st ← typeIntoCELoop speed rand text 0 st
    dispatchEvent Ev.inputPlain st

/-- document.execCommand insertText: appends at the caret inside the focused
editable region, or throws on a broken surface. -/
def execCommandInsert (s : Str) (st : DomState) : Except String DomState :=
  if st.el.broken then Except.error "execCommand failed"
  else Except.ok { st with el := { st.el with textContent := st.el.textContent ++ s } }

/-- The per-character loop of insertViaExecCommand. -/
def insertViaExecCommandLoop (speed : ℤ) (rand : ℕ → ℚ) :
    List Char → ℕ → DomState → Except String DomState
  | [], _, st => Except.ok st
  | c :: cs, i, st => do
    let st ← execCommandInsert [c] st
    let st ← dispatchKeyEvents c st
    let st := sleepDelay (getRandomDelay (max 10 (speed - 20)) (speed + 30) (rand i)) st
    insertViaExecCommandLoop speed rand cs (i + 1) st

/-- insertViaExecCommand from typing.js. -/
def insertViaExecCommand (text : Str) (simulate : Bool) (speed : ℤ)
    (rand : ℕ → ℚ) (st : DomState) : Except String DomState :=
  if simulate = false then execCommandInsert text st
  else insertViaExecCommandLoop speed rand text 0 st

/-- tagName.toLowerCase(): character-wise lowering of the tag name. -/
def jsToLowerCase (s : String) : String := String.mk (s.data.map Char.toLower)

/-- element.isContentEditable or contenteditable attribute equal to "true". -/
def isCE (el : Elem) : Bool :=
  el.contentEditableProp || (el.contenteditableAttr == some "true")

/-- The body of insertText inside the try block: select the insertion path
from the tag name and contenteditable flags and run it on a fresh trace. -/
def insertTextRun (el : Elem) (text : Str) (simulate : Bool) (speed : ℤ)
    (rand : ℕ → ℚ) : Except String DomState :=
  if jsToLowerCase el.tagName = "input" ∨ jsToLowerCase el.tagName = "textarea" then
    typeIntoInput text simulate speed rand ⟨el, [], []⟩
  else if isCE el then
    typeIntoContentEditable text simulate speed rand ⟨el, [], []⟩
  else
    insertViaExecCommand text simulate speed rand ⟨el, [], []⟩

/-- insertText from typing.js: false for a missing element or empty text,
false when the body throws (the try-catch swallow), true on completion. -/
def insertText (el : Option Elem) (text : Str) (simulate : Bool) (speed : ℤ)
    (rand : ℕ → ℚ) : Bool :=
  match el with
  | none => false
  | some e =>
    if text = [] then false
    else
      match insertTextRun e text simulate speed rand with
      | Except.ok _ => true
      | Except.error _ => false

/-- A bounding rectangle as returned by getBoundingClientRect. -/
structure Rect where
  left : ℚ
  right : ℚ
  top : ℚ
  bottom : ℚ
  deriving DecidableEq

/-- The desired popup dimensions passed to calculatePopupPosition. -/
structure PopupSize where
  width : ℚ
  height : ℚ
  deriving DecidableEq

/-- calculatePopupPosition from dom.js: below-and-left-aligned to the trigger,
clamped to a 16px horizontal margin; on bottom overflow flip above the trigger
when the flipped top clears 16, else center vertically. Returns (top, left). -/
def calculatePopupPosition (rect : Rect) (popupSize : PopupSize) (offset : ℚ)
    (viewportWidth viewportHeight : ℚ) : ℚ × ℚ :=
  let top := rect.bottom + offset
  let left := rect.left
  let left :=
    if viewportWidth - 16 < left + popupSize.width
    then viewportWidth - popupSize.width - 16 else left
  let left := if left < 16 then 16 else left
  let top :=
    if viewportHeight - 16 < top + popupSize.height then
      if 16 < rect.top - popupSize.height - offset then rect.top - popupSize.height - offset
      else max 16 ((viewportHeight - popupSize.height) / 2)
    else top
  (top, left)

/-- A trigger rectangle in the bottom-right region of the viewport: inside the
viewport and with both its left and top edges past the viewport midlines. -/
def nearBottomRight (r : Rect) (vw vh : ℚ) : Prop :=
  vw / 2 ≤ r.left ∧ r.left ≤ r.right ∧ r.right ≤ vw ∧
  vh / 2 ≤ r.top ∧ r.top ≤ r.bottom ∧ r.bottom ≤ vh

/-- An element carrying text, as getTextContent in dom.js reads it. -/
structure TextElem where
  innerText : Str
  textContent : Str
  deriving DecidableEq

/-- getTextContent from dom.js: empty for a missing element, otherwise the
trimmed innerText when truthy, else the trimmed textContent. -/
def getTextContent : Option TextElem → Str
  | none => []
  | some el =>
    if el.innerText.isEmpty = false then strTrim el.innerText
    else strTrim el.textContent

/-- The DOM query results YouTubePlatform.extractContext reads: the video
title, the description, the channel name, and the #content-text of the
enclosing ytd-comment-renderer when the box is a reply box. -/
structure YtDom where
  titleEl : Option TextElem
  descriptionEl : Option TextElem
  channelEl : Option TextElem
  commentTextEl : Option TextElem
  deriving DecidableEq

/-- YouTubePlatform.extractContext: fields start null and are filled from the
found elements; only the description is truncated with substring(0, 500). -/
def youtubeExtractContext (dom : YtDom) : ReplyContext :=
  { platform := "youtube"
    postTitle := dom.titleEl.map (fun e => getTextContent (some e))
    postDescription := dom.descriptionEl.map (fun e => (getTextContent (some e)).take 500)
    postAuthor := dom.channelEl.map (fun e => getTextContent (some e))
    originalComment := dom.commentTextEl.map (fun e => getTextContent (some e)) }

/-- The DOM query results InstagramPlatform.extractContext reads inside the
article: the caption, the author link, and the comment being replied to. -/
structure IgArticle where
  captionEl : Option TextElem
  authorEl : Option TextElem
  replyCommentEl : Option TextElem
  deriving DecidableEq

/-- InstagramPlatform.extractContext: all fields stay null without an article;
only the caption is truncated with substring(0, 500). -/
def instagramExtractContext (article : Option IgArticle) : ReplyContext :=
  match article with
  | none => { platform := "instagram" }
  | some a =>
    { platform := "instagram"
      postCaption := a.captionEl.map (fun e => (getTextContent (some e)).take 500)
      postAuthor := a.authorEl.map (fun e => getTextContent (some e))
      originalComment := a.replyCommentEl.map (fun e => getTextContent (some e)) }

/-- A candidate input container as BasePlatform.processInput sees it: an
identity, the rendered rectangle and styles, and whether a parent exists to
receive the injected button. -/
structure PageElem where
  id : ℕ
  width : ℚ
  height : ℚ
  visibility : String
  display : String
  opacity : String
  hasParent : Bool
  deriving DecidableEq

/-- isElementVisible from dom.js: nonzero rendered size and not hidden via
visibility, display or zero opacity. -/
def isElementVisible : Option PageElem → Bool
  | none => false
  | some el =>
    decide (0 < el.width) && decide (0 < el.height) &&
    decide (el.visibility ≠ "hidden") && decide (el.display ≠ "none") &&
    decide (el.opacity ≠ "0")

/-- Adapter-instance state: the WeakSet of processed containers, and the
injected trigger buttons tagged by the container they belong to. -/
structure AdapterState where
  processed : List ℕ
  buttonsFor : List ℕ
  deriving DecidableEq

/-- BasePlatform.processInput: skip an already processed or invisible element;
otherwise create the trigger button, let injectButton insert it next to the
input (when a parent exists), and mark the element processed. -/
def processInput (st : AdapterState) (el : PageElem) : AdapterState :=
  if el.id ∈ st.processed then st
  else if isElementVisible (some el) = false then st
  else
    { processed := el.id :: st.processed,
      buttonsFor := if el.hasParent then el.id :: st.buttonsFor else st.buttonsFor }

/-- A tweet editor with the results of the closest-ancestor queries at the top
of TwitterPlatform.processEditor, plus the anchor probes used for placement. -/
structure TwEditor where
  closestComposer : Option ℕ
  closestToolbarParent : Option ℕ
  closestDraftRootGP : Option ℕ
  closestForm : Option ℕ
  parentParent : Option ℕ
  hasToolbar : Bool
  hasTweetButtonParent : Bool
  hasEditorParent : Bool
  deriving DecidableEq

/-- The composer chain: closest tweetbox-composer, else the toolBar parent,
else the DraftEditor-root grandparent. -/
def twComposer (ed : TwEditor) : Option ℕ :=
  match ed.closestComposer with
  | some c => some c
  | none =>
    match ed.closestToolbarParent with
    | some c => some c
    | none => ed.closestDraftRootGP

/-- container = composer || editor.closest(form) || editor.parentElement
dot parentElement. -/
def twContainer (ed : TwEditor) : Option ℕ :=
  match twComposer ed with
  | some c => some c
  | none =>
    match ed.closestForm with
    | some c => some c
    | none => ed.parentParent

/-- TwitterPlatform.processEditor: bail without a container or when the
container is already processed; otherwise create and place the button at the
first available anchor (toolbar start, before the tweet button, or appended
to the editor parent) and mark the container processed. -/
def processEditor (st : AdapterState) (ed : TwEditor) : AdapterState :=
  match twContainer ed with
  | none => st
  | some c =>
    if c ∈ st.processed then st
    else
      { processed := c :: st.processed,
        buttonsFor :=
          if ed.hasToolbar || ed.hasTweetButtonParent || ed.hasEditorParent
          then c :: st.buttonsFor else st.buttonsFor }

/-- The response record produced by ApiService.generateReplies. -/
structure GenResult where
  success : Bool
  error : Option String
  suggestions : List String
  deriving DecidableEq

/-- The distinguishable outcomes of one generateReplies run in api.js: missing
API key, a thrown transport/HTTP error, an empty response body, or a response
body handed to parseResponse. -/
inductive ApiOutcome where
  | noApiKey
  | httpError (msg : String)
  | emptyContent
  | content (body : String)
  deriving DecidableEq

/-- ApiService.generateReplies over the interaction outcome: every failure
path returns success false with the tone-keyed fallback suggestions attached;
a body parsed to zero suggestions throws and lands in the same failure path;
a parsable body returns success true with the parsed suggestions. -/
def generateRepliesSvc (ctx : ReplyContext) (tone : String) (o : ApiOutcome) :
    GenResult :=
  match o with
  | ApiOutcome.noApiKey =>
    ⟨false,
     some "API key not configured. Please set your API key in the extension options.",
     getFallbackSuggestions ctx tone⟩
  | ApiOutcome.httpError msg => ⟨false, some msg, getFallbackSuggestions ctx tone⟩
  | ApiOutcome.emptyContent =>
    ⟨false, some "Empty response from API", getFallbackSuggestions ctx tone⟩
  | ApiOutcome.content body =>
    if parseResponse body = [] then
      ⟨false, some "Failed to parse suggestions from response",
       getFallbackSuggestions ctx tone⟩
    else ⟨true, none, parseResponse body⟩

/-- The popup fields getContentTemplate reads. -/
structure Popup where
  isLoading : Bool
  error : Option String
  suggestions : List String
  deriving DecidableEq

/-- SmartReplyPopup.setLoading: entering loading clears error and suggestions. -/
def setLoading (loading : Bool) (p : Popup) : Popup :=
  if loading then { isLoading := loading, error := none, suggestions := [] }
  else { p with isLoading := loading }

/-- SmartReplyPopup.setSuggestions. -/
def setSuggestions (s : List String) (p : Popup) : Popup :=
  { isLoading := false, error := none, suggestions := s }

/-- SmartReplyPopup.setError: keeps whatever suggestions were stored. -/
def setError (e : String) (p : Popup) : Popup :=
  { p with isLoading := false, error := some e }

/-- JS truthiness of a nullable string: non-null and nonempty. -/
def jsTruthy : Option String → Bool
  | none => false
  | some e => !e.isEmpty

/-- The three mutually exclusive renderings of getContentTemplate. -/
inductive PopupView where
  | loadingView
  | errorView (msg : String)
  | suggestionsView (l : List String)
  deriving DecidableEq

/-- SmartReplyPopup.getContentTemplate: loading wins, then a truthy error,
then the spinner again for an empty list, else the suggestion list. -/
def popupView (p : Popup) : PopupView :=
  if p.isLoading then PopupView.loadingView
  else if jsTruthy p.error then PopupView.errorView (p.error.getD "")
  else if p.suggestions.isEmpty then PopupView.loadingView
  else PopupView.suggestionsView p.suggestions

/-- response.error || fallback message: the JS or-else over a possibly empty
string. -/
def jsOrDefault (o : Option String) (d : String) : String :=
  match o with
  | some e => if e.isEmpty then d else e
  | none => d

/-- SmartReplyApp.generateReplies from content/index.js, given the response of
the background service: setLoading first; suggestions on success; a failed
response that still carries suggestions is shown as suggestions (fallback with
warning); only a failed response with an empty list reaches setError. -/
def controllerGenerateReplies (resp : GenResult) (p : Popup) : Popup :=
  let p1 := setLoading true p
  if resp.success then setSuggestions resp.suggestions p1
  else if resp.suggestions.isEmpty = false then setSuggestions resp.suggestions p1
  else setError (jsOrDefault resp.error "Failed to generate replies") p1

/-- The numbered-branch push loop accumulates exactly the filterMap of the
line matcher over the kept lines. -/
theorem numberedLoop_eq (lines : List Str) (acc : List Str) :
    numberedLoop lines acc =
      acc ++ lines.filterMap
        (fun line => (matchNumbered line).map (fun m => stripQuotes (strTrim m))) := by
  induction lines generalizing acc with
  | nil => simp [numberedLoop]
  | cons line rest ih =>
    cases h : matchNumbered line with
    | none => simp [numberedLoop, h, ih]
    | some m => simp [numberedLoop, h, ih]

/-- The paragraph-branch push loop accumulates exactly the filterMap of the
cleaning filter over the paragraph parts. -/
theorem paraLoop_eq (parts : List Str) (acc : List Str) :
    paraLoop parts acc =
      acc ++ parts.filterMap (fun part =>
        if (stripQuotes (strTrim part)).isEmpty = false ∧
            5 < (stripQuotes (strTrim part)).length
        then some (stripQuotes (strTrim part)) else none) := by
  induction parts generalizing acc with
  | nil => simp [paraLoop]
  | cons part rest ih =>
    simp only [paraLoop, List.filterMap_cons]
    by_cases h : (stripQuotes (strTrim part)).isEmpty = false ∧
        5 < (stripQuotes (strTrim part)).length
    · rw [if_pos h, if_pos h, ih]
      simp
    · rw [if_neg h, if_neg h, ih]

/-- parseResponseCore is the take-3 of the numbered pass when that pass
produced anything, and of the paragraph fallback otherwise. -/
theorem parseResponseCore_eq (content : Str) :
    parseResponseCore content =
      (if numberedSuggestions content = [] then paraSuggestions content
       else numberedSuggestions content).take 3 := by
  unfold parseResponseCore numberedSuggestions paraSuggestions SUGGESTIONS_COUNT
  simp only [numberedLoop_eq, paraLoop_eq, List.nil_append, List.isEmpty_iff]

/-- C5: parseResponse on the synthetic response yields exactly
["Foo", "Bar", "Baz"] in order; in general the result has at most 3 entries,
is the line-ordered list of numbered matches with surrounding quotes stripped,
and falls back to blank-line paragraphs of length greater than 5 exactly when
no numbered line matched. -/
theorem parseResponse_roundtrip_and_shape :
    parseResponse "1. Foo\n2. Bar\n3. Baz" = ["Foo", "Bar", "Baz"] ∧
    ∀ content : Str,
      (parseResponseCore content).length ≤ 3 ∧
      parseResponseCore content =
        (if numberedSuggestions content = [] then paraSuggestions content
         else numberedSuggestions content).take 3 := by
  refine ⟨by decide, fun content => ⟨?_, parseResponseCore_eq content⟩⟩
  rw [parseResponseCore_eq]
  exact (List.length_take _ _).trans_le (min_le_left _ _)

/-- C9: the numbered branch applies no minimum-length filter, so a line made
of a numeral, a dot, a space and a quote parses to the empty suggestion. -/
theorem parseResponse_empty_suggestion :
    parseResponse "1. \"" = [""] ∧ "" ∈ parseResponse "1. \"" := by
  exact ⟨by decide, by decide⟩

/-- A random draw from [0, 1) puts getRandomDelay inside [mn, mx]. -/
theorem getRandomDelay_bounds (mn mx : ℤ) (r : ℚ) (h0 : 0 ≤ r) (h1 : r < 1)
    (hle : mn ≤ mx) :
    mn ≤ getRandomDelay mn mx r ∧ getRandomDelay mn mx r ≤ mx := by
  unfold getRandomDelay
  have hspan : (0 : ℚ) < ((mx - mn + 1 : ℤ) : ℚ) := by
    exact_mod_cast (by omega : (0 : ℤ) < mx - mn + 1)
  constructor
  · have hnn : (0 : ℤ) ≤ ⌊r * ((mx - mn + 1 : ℤ) : ℚ)⌋ :=
      Int.floor_nonneg.mpr (mul_nonneg h0 hspan.le)
    omega
  · have hlt : r * ((mx - mn + 1 : ℤ) : ℚ) < ((mx - mn + 1 : ℤ) : ℚ) := by
      nlinarith
    have := Int.floor_lt.mpr (by exact_mod_cast hlt)
    omega

/-- C2: simulated typing of "hi" into a plain input dispatches exactly the two
keydown/keypress/input/keyup quadruples in source order followed by one change
event, sleeps twice with each delay inside
[max 10 (speed - 20), speed + 30], and leaves the value equal to the
pre-existing value concatenated with "hi". -/
theorem typeIntoInput_simulated_hi (el : Elem) (speed : ℤ) (rand : ℕ → ℚ)
    (hb : el.broken = false) (hr : ∀ i, 0 ≤ rand i ∧ rand i < 1)
    (hs : 0 ≤ speed) :
    ∃ st, typeIntoInput "hi".data true speed rand ⟨el, [], []⟩ = Except.ok st ∧
      st.el.value = el.value ++ "hi".data ∧
      st.events = [Ev.keydown 'h', Ev.keypress 'h', Ev.inputData 'h', Ev.keyup 'h',
                   Ev.keydown 'i', Ev.keypress 'i', Ev.inputData 'i', Ev.keyup 'i',
                   Ev.change] ∧
      st.delays.length = 2 ∧
      ∀ d ∈ st.delays, max 10 (speed - 20) ≤ d ∧ d ≤ speed + 30 := by
  have hle : max 10 (speed - 20) ≤ speed + 30 := by
    apply max_le <;> omega
  have hd0 := getRandomDelay_bounds (max 10 (speed - 20)) (speed + 30) (rand 0)
    (hr 0).1 (hr 0).2 hle
  have hd1 := getRandomDelay_bounds (max 10 (speed - 20)) (speed + 30) (rand 1)
    (hr 1).1 (hr 1).2 hle
  refine ⟨⟨{ el with value := el.value ++ "hi".data },
      [Ev.keydown 'h', Ev.keypress 'h', Ev.inputData 'h', Ev.keyup 'h',
       Ev.keydown 'i', Ev.keypress 'i', Ev.inputData 'i', Ev.keyup 'i',
       Ev.change],
      [getRandomDelay (max 10 (speed - 20)) (speed + 30) (rand 0),
       getRandomDelay (max 10 (speed - 20)) (speed + 30) (rand 1)]⟩,
    ?_, rfl, rfl, rfl, ?_⟩
  · simp [typeIntoInput, typeIntoInputLoop, dispatchKeyEvents, dispatchEvent,
      setElemValue, sleepDelay, hb, String.data, Bind.bind, Except.bind]
  · intro d hd
    simp only [List.mem_cons, List.not_mem_nil, or_false] at hd
    rcases hd with h | h <;> subst h
    · exact hd0
    · exact hd1

/-- Concrete instantiation of typeIntoInput_simulated_hi: value "x", speed 50,
all random draws one half. -/
theorem typeIntoInput_simulated_hi_witness :
    ∃ st, typeIntoInput "hi".data true 50 (fun _ => (1 : ℚ) / 2)
        ⟨⟨"input", false, none, "x".data, [], true, false⟩, [], []⟩ = Except.ok st ∧
      st.el.value = "x".data ++ "hi".data ∧
      st.events = [Ev.keydown 'h', Ev.keypress 'h', Ev.inputData 'h', Ev.keyup 'h',
                   Ev.keydown 'i', Ev.keypress 'i', Ev.inputData 'i', Ev.keyup 'i',
                   Ev.change] ∧
      st.delays.length = 2 ∧
      ∀ d ∈ st.delays, max 10 (50 - 20) ≤ d ∧ d ≤ 50 + 30 :=
  typeIntoInput_simulated_hi ⟨"input", false, none, "x".data, [], true, false⟩ 50
    (fun _ => (1 : ℚ) / 2) rfl (fun _ => ⟨by norm_num, by norm_num⟩) (by norm_num)

/-- C3 (amended): in direct mode the engine assigns the complete string in one
update on every surface; a plain input/textarea then gets exactly one input
and one change notification, while a rich-text/content-editable surface gets
exactly one input notification and no change notification. -/
theorem direct_mode_assignment (el : Elem) (text : Str) (speed : ℤ)
    (rand : ℕ → ℚ) (hb : el.broken = false) :
    (∃ st, typeIntoInput text false speed rand ⟨el, [], []⟩ = Except.ok st ∧
       st.el.value = text ∧ st.events = [Ev.inputPlain, Ev.change]) ∧
    (∃ st, typeIntoContentEditable text false speed rand ⟨el, [], []⟩ = Except.ok st ∧
       st.el.textContent = text ∧ st.events = [Ev.inputPlain]) := by
  constructor
  · refine ⟨⟨{ el with value := text }, [Ev.inputPlain, Ev.change], []⟩, ?_, rfl, rfl⟩
    simp [typeIntoInput, setElemValue, dispatchEvent, hb, Bind.bind, Except.bind]
  · refine ⟨⟨{ el with textContent := text }, [Ev.inputPlain], []⟩, ?_, rfl, rfl⟩
    simp [typeIntoContentEditable, dispatchEvent, hb, Bind.bind, Except.bind]

/-- Concrete instantiation of direct_mode_assignment at an empty textarea. -/
theorem direct_mode_assignment_witness :
    (∃ st, typeIntoInput "ok".data false 50 (fun _ => 0)
        ⟨⟨"textarea", false, none, [], [], true, false⟩, [], []⟩ = Except.ok st ∧
       st.el.value = "ok".data ∧ st.events = [Ev.inputPlain, Ev.change]) ∧
    (∃ st, typeIntoContentEditable "ok".data false 50 (fun _ => 0)
        ⟨⟨"textarea", false, none, [], [], true, false⟩, [], []⟩ = Except.ok st ∧
       st.el.textContent = "ok".data ∧ st.events = [Ev.inputPlain]) :=
  direct_mode_assignment ⟨"textarea", false, none, [], [], true, false⟩ "ok".data 50
    (fun _ => 0) rfl

/-- C3 counterexample: direct insertion of "a" into a content-editable div
dispatches a single input event and zero change events, so direct mode does
not dispatch one change notification on every surface. -/
theorem direct_mode_ce_no_change :
    typeIntoContentEditable "a".data false 50 (fun _ => 0)
        ⟨⟨"div", true, some "true", [], [], false, false⟩, [], []⟩ =
      Except.ok ⟨⟨"div", true, some "true", [], "a".data, false, false⟩,
        [Ev.inputPlain], []⟩ ∧
    [Ev.inputPlain].count Ev.change = 0 ∧ ¬[Ev.inputPlain].count Ev.change = 1 := by
  refine ⟨?_, rfl, by decide⟩
  simp [typeIntoContentEditable, dispatchEvent, Bind.bind, Except.bind, String.data]

/-- C4: insertText resolves to a boolean and never throws outward: false for a
missing element or empty text, false when the selected insertion path throws
(the try-catch at the top of insertText), true when the path completes. -/
theorem insertText_contract (el : Option Elem) (text : Str) (simulate : Bool)
    (speed : ℤ) (rand : ℕ → ℚ) :
    (el = none → insertText el text simulate speed rand = false) ∧
    (text = [] → insertText el text simulate speed rand = false) ∧
    (∀ e, el = some e → text ≠ [] →
      ((∃ err, insertTextRun e text simulate speed rand = Except.error err) →
        insertText el text simulate speed rand = false) ∧
      (∀ st, insertTextRun e text simulate speed rand = Except.ok st →
        insertText el text simulate speed rand = true)) := by
  refine ⟨?_, ?_, ?_⟩
  · intro h; subst h; rfl
  · intro h
    subst h
    cases el <;> simp [insertText]
  · intro e he hne
    subst he
    constructor
    · rintro ⟨err, herr⟩
      simp [insertText, hne, herr]
    · intro st hok
      simp [insertText, hne, hok]

/-- Concrete instantiation of insertText_contract: a missing element resolves
false; a broken surface resolves false; a working empty input resolves true. -/
theorem insertText_contract_witness :
    insertText none "ok".data false 50 (fun _ => 0) = false ∧
    insertText (some ⟨"input", false, none, [], [], true, true⟩) "ok".data false 50
      (fun _ => 0) = false ∧
    insertText (some ⟨"input", false, none, [], [], true, false⟩) "ok".data false 50
      (fun _ => 0) = true := by
  refine ⟨(insertText_contract none "ok".data false 50 (fun _ => 0)).1 rfl, ?_, ?_⟩
  · exact ((insertText_contract (some ⟨"input", false, none, [], [], true, true⟩)
      "ok".data false 50 (fun _ => 0)).2.2 _ rfl (by decide)).1 ⟨"dispatch failed", by rfl⟩
  · exact ((insertText_contract (some ⟨"input", false, none, [], [], true, false⟩)
      "ok".data false 50 (fun _ => 0)).2.2 _ rfl (by decide)).2
      ⟨⟨"input", false, none, "ok".data, [], true, false⟩, [Ev.inputPlain, Ev.change], []⟩
      (by rfl)

/-- C8 counterexample: a 4px-tall trigger at the very bottom-right of a
1000 by 800 viewport makes calculatePopupPosition flip above the trigger to
top 388, whose bottom edge 788 overruns the 784 bottom margin line. -/
theorem calculatePopupPosition_overflow :
    nearBottomRight ⟨900, 950, 796, 800⟩ 1000 800 ∧
    calculatePopupPosition ⟨900, 950, 796, 800⟩ ⟨380, 400⟩ 8 1000 800 = (388, 604) ∧
    ¬((388 : ℚ) + 400 ≤ 800 - 16) := by
  refine ⟨?_, ?_, by norm_num⟩
  · unfold nearBottomRight
    norm_num
  · unfold calculatePopupPosition
    norm_num

/-- C8 (amended): for every trigger rectangle in the bottom-right region of a
1000 by 800 viewport whose top edge lies at least the 8px offset above the
784 bottom margin line, calculatePopupPosition with a 380 by 400 popup stays
inside the 16px-margined viewport on both axes. -/
theorem calculatePopupPosition_in_margins (r : Rect)
    (h : nearBottomRight r 1000 800) (htop : r.top ≤ 792) :
    16 ≤ (calculatePopupPosition r ⟨380, 400⟩ 8 1000 800).2 ∧
    (calculatePopupPosition r ⟨380, 400⟩ 8 1000 800).2 + 380 ≤ 1000 - 16 ∧
    16 ≤ (calculatePopupPosition r ⟨380, 400⟩ 8 1000 800).1 ∧
    (calculatePopupPosition r ⟨380, 400⟩ 8 1000 800).1 + 400 ≤ 800 - 16 := by
  obtain ⟨h1, h2, h3, h4, h5, h6⟩ := h
  unfold calculatePopupPosition
  norm_num
  split_ifs with hw hl hb ha hb2 ha2 <;>
    constructor <;> try constructor
  all_goals try constructor
  all_goals try linarith
  all_goals
    rw [le_max_iff] <;> norm_num

/-- Concrete instantiation of calculatePopupPosition_in_margins at a trigger
rectangle near the bottom-right corner. -/
theorem calculatePopupPosition_in_margins_witness :
    16 ≤ (calculatePopupPosition ⟨900, 950, 700, 720⟩ ⟨380, 400⟩ 8 1000 800).2 ∧
    (calculatePopupPosition ⟨900, 950, 700, 720⟩ ⟨380, 400⟩ 8 1000 800).2 + 380 ≤ 1000 - 16 ∧
    16 ≤ (calculatePopupPosition ⟨900, 950, 700, 720⟩ ⟨380, 400⟩ 8 1000 800).1 ∧
    (calculatePopupPosition ⟨900, 950, 700, 720⟩ ⟨380, 400⟩ 8 1000 800).1 + 400 ≤ 800 - 16 :=
  calculatePopupPosition_in_margins ⟨900, 950, 700, 720⟩
    (by unfold nearBottomRight; norm_num) (by norm_num)

/-- getTextContent returns the trimmed innerText when it is nonempty. -/
theorem getTextContent_innerText (w t : Str) (hw : w.isEmpty = false) :
    getTextContent (some ⟨w, t⟩) = strTrim w := by
  simp [getTextContent, hw]

/-- Trimming a string with no whitespace characters leaves it unchanged. -/
theorem strTrim_no_ws (s : Str) (h : ∀ c ∈ s, isWs c = false) : strTrim s = s := by
  have h1 : s.dropWhile isWs = s := by
    cases s with
    | nil => rfl
    | cons a l =>
      apply List.dropWhile_cons_of_neg
      simp [h a (List.mem_cons_self a l)]
  have h2 : s.reverse.dropWhile isWs = s.reverse := by
    cases hr : s.reverse with
    | nil => rfl
    | cons b t =>
      apply List.dropWhile_cons_of_neg
      have hb : b ∈ s := by
        rw [← List.mem_reverse, hr]
        exact List.mem_cons_self b t
      simp [h b hb]
  unfold strTrim
  rw [h1, h2, List.reverse_reverse]

/-- C6 (amended): extractContext truncates the YouTube description and the
Instagram caption to at most 500 characters; the title, author and
parent-comment fields are taken verbatim and are not truncated. -/
theorem extractContext_truncates_description_and_caption (yt : YtDom)
    (ig : Option IgArticle) :
    (∀ d, (youtubeExtractContext yt).postDescription = some d → d.length ≤ 500) ∧
    (∀ c, (instagramExtractContext ig).postCaption = some c → c.length ≤ 500) := by
  constructor
  · intro d hd
    unfold youtubeExtractContext at hd
    simp only [Option.map_eq_some'] at hd
    obtain ⟨e, _, he⟩ := hd
    subst he
    exact (List.length_take _ _).trans_le (min_le_left _ _)
  · intro c hc
    unfold instagramExtractContext at hc
    cases ig with
    | none => simp at hc
    | some a =>
      simp only [Option.map_eq_some'] at hc
      obtain ⟨e, _, he⟩ := hc
      subst he
      exact (List.length_take _ _).trans_le (min_le_left _ _)

/-- Concrete instantiation of the truncation bound at a 501-character
description and caption. -/
theorem extractContext_truncates_witness :
    (∀ d, (youtubeExtractContext
        ⟨none, some ⟨List.replicate 501 'a', []⟩, none, none⟩).postDescription =
          some d → d.length ≤ 500) ∧
    (∀ c, (instagramExtractContext
        (some ⟨some ⟨List.replicate 501 'a', []⟩, none, none⟩)).postCaption =
          some c → c.length ≤ 500) :=
  extractContext_truncates_description_and_caption
    ⟨none, some ⟨List.replicate 501 'a', []⟩, none, none⟩
    (some ⟨some ⟨List.replicate 501 'a', []⟩, none, none⟩)

/-- C6 counterexample: a 501-character parent comment is stored verbatim in
the YouTube ReplyContext, so not every text field is truncated to 500. -/
theorem extractContext_comment_not_truncated :
    (youtubeExtractContext
        ⟨none, none, none, some ⟨List.replicate 501 'a', []⟩⟩).originalComment =
      some (List.replicate 501 'a') ∧
    (List.replicate 501 'a').length = 501 ∧ ¬(501 ≤ 500) := by
  refine ⟨?_, by rw [List.length_replicate], by norm_num⟩
  show Option.map (fun e => getTextContent (some e))
      (some ⟨List.replicate 501 'a', []⟩) = some (List.replicate 501 'a')
  rw [Option.map_some', getTextContent_innerText _ _ (by decide), strTrim_no_ws]
  intro c hc
  rw [List.eq_of_mem_replicate hc]
  rfl

/-- The fallback table serves exactly 3 suggestions for every tone string. -/
theorem fallback_length_three (ctx : ReplyContext) (tone : String) :
    (getFallbackSuggestions ctx tone).length = 3 := by
  unfold getFallbackSuggestions fallbackTable
  split_ifs <;> simp_all

/-- Every suggestion in every own-key fallback list is nonempty. -/
theorem fallback_mem_nonempty (ctx : ReplyContext) (tone : String) :
    ∀ s ∈ getFallbackSuggestions ctx tone, s ≠ "" := by
  by_cases h1 : tone = "auto" <;> by_cases h2 : tone = "friendly" <;>
    by_cases h3 : tone = "humorous" <;> by_cases h4 : tone = "engaging" <;>
    simp_all [getFallbackSuggestions, fallbackTable] <;> decide

/-- For a tone outside the four own keys the restricted lookup serves the
auto list. -/
theorem fallback_unknown_eq_auto (ctx : ReplyContext) (tone : String)
    (h : tone ∉ ["auto", "friendly", "humorous", "engaging"]) :
    getFallbackSuggestions ctx tone = getFallbackSuggestions ctx "auto" := by
  have h1 : tone ≠ "auto" := fun e => h (by rw [e]; simp)
  have h2 : tone ≠ "friendly" := fun e => h (by rw [e]; simp)
  have h3 : tone ≠ "humorous" := fun e => h (by rw [e]; simp)
  have h4 : tone ≠ "engaging" := fun e => h (by rw [e]; simp)
  unfold getFallbackSuggestions fallbackTable
  rw [if_neg h1, if_neg h2, if_neg h3, if_neg h4]
  rfl

/-- For a tone that is not a member name of Object.prototype the bracket
lookup sees only the literal's own properties. -/
theorem fallbackLookup_nonproto (tone : String) (h : tone ∉ objectPrototypeKeys) :
    fallbackLookup tone =
      (match fallbackTable tone with
        | some l => JsValue.strings l
        | none => JsValue.undef) := by
  unfold fallbackLookup
  cases hf : fallbackTable tone with
  | some l => rfl
  | none => simp [h]

/-- Outside Object.prototype member names the full-lookup semantics agrees
with the restricted getFallbackSuggestions. -/
theorem getFallbackSuggestionsJs_nonproto (ctx : ReplyContext) (tone : String)
    (h : tone ∉ objectPrototypeKeys) :
    getFallbackSuggestionsJs ctx tone =
      JsValue.strings (getFallbackSuggestions ctx tone) := by
  unfold getFallbackSuggestionsJs getFallbackSuggestions
  rw [fallbackLookup_nonproto tone h]
  cases hf : fallbackTable tone with
  | some l => simp [jsValueTruthy]
  | none => simp [jsValueTruthy]; rfl

/-- C10 counterexample: fallbacks["toString"] traverses the prototype chain
and hits the truthy inherited Object.prototype.toString, so the call returns
that inherited member, which is neither 3 fallback strings nor the auto list. -/
theorem getFallbackSuggestions_toString_inherited :
    getFallbackSuggestionsJs ⟨"youtube", none, none, none, none, none⟩ "toString" =
      JsValue.inherited "toString" ∧
    getFallbackSuggestionsJs ⟨"youtube", none, none, none, none, none⟩ "toString" ≠
      JsValue.strings
        (getFallbackSuggestions ⟨"youtube", none, none, none, none, none⟩ "auto") := by
  decide

/-- C10 (amended): for every tone string that is not a member name of
Object.prototype, getFallbackSuggestions returns exactly 3 non-empty strings,
and for an unknown such tone the result equals the auto-tone fallback list;
for an Object.prototype member name the bracket lookup returns the inherited
member instead of a suggestion list. -/
theorem getFallbackSuggestions_total_amended :
    ∀ (ctx : ReplyContext) (tone : String), tone ∉ objectPrototypeKeys →
      getFallbackSuggestionsJs ctx tone =
        JsValue.strings (getFallbackSuggestions ctx tone) ∧
      (getFallbackSuggestions ctx tone).length = 3 ∧
      (∀ s ∈ getFallbackSuggestions ctx tone, s ≠ "") ∧
      (tone ∉ ["auto", "friendly", "humorous", "engaging"] →
        getFallbackSuggestions ctx tone = getFallbackSuggestions ctx "auto") := by
  intro ctx tone h
  exact ⟨getFallbackSuggestionsJs_nonproto ctx tone h, fallback_length_three ctx tone,
    fallback_mem_nonempty ctx tone, fallback_unknown_eq_auto ctx tone⟩

/-- Concrete instantiation of getFallbackSuggestions_total_amended at an
unknown tone outside Object.prototype member names. -/
theorem getFallbackSuggestions_total_amended_witness :
    getFallbackSuggestionsJs ⟨"youtube", none, none, none, none, none⟩ "spicy" =
      JsValue.strings
        (getFallbackSuggestions ⟨"youtube", none, none, none, none, none⟩ "spicy") ∧
    (getFallbackSuggestions ⟨"youtube", none, none, none, none, none⟩ "spicy").length = 3 ∧
    getFallbackSuggestions ⟨"youtube", none, none, none, none, none⟩ "spicy" =
      getFallbackSuggestions ⟨"youtube", none, none, none, none, none⟩ "auto" := by
  have h := getFallbackSuggestions_total_amended
    ⟨"youtube", none, none, none, none, none⟩ "spicy" (by decide)
  exact ⟨h.1, h.2.1, h.2.2.2 (by decide)⟩

/-- BasePlatform.processInput applied twice to the same element is the same as
applied once. -/
theorem processInput_idem (st : AdapterState) (el : PageElem) :
    processInput (processInput st el) el = processInput st el := by
  by_cases h1 : el.id ∈ st.processed
  · have e1 : processInput st el = st := by
      unfold processInput
      rw [if_pos h1]
    rw [e1, e1]
  · by_cases h2 : isElementVisible (some el) = false
    · have e1 : processInput st el = st := by
        unfold processInput
        rw [if_neg h1, if_pos h2]
      rw [e1, e1]
    · have e1 : processInput st el = ⟨el.id :: st.processed,
          if el.hasParent then el.id :: st.buttonsFor else st.buttonsFor⟩ := by
        unfold processInput
        rw [if_neg h1, if_neg h2]
      rw [e1]
      unfold processInput
      rw [if_pos (List.mem_cons_self el.id st.processed)]

/-- One processInput application adds at most one button for the element. -/
theorem processInput_count (st : AdapterState) (el : PageElem) :
    (processInput st el).buttonsFor.count el.id ≤ st.buttonsFor.count el.id + 1 := by
  unfold processInput
  split_ifs <;> simp [List.count_cons] <;> omega

/-- TwitterPlatform.processEditor applied twice to the same editor is the same
as applied once. -/
theorem processEditor_idem (st : AdapterState) (ed : TwEditor) :
    processEditor (processEditor st ed) ed = processEditor st ed := by
  cases hc : twContainer ed with
  | none =>
    have e1 : processEditor st ed = st := by
      unfold processEditor
      rw [hc]
    rw [e1, e1]
  | some c =>
    by_cases h1 : c ∈ st.processed
    · have e1 : processEditor st ed = st := by
        unfold processEditor
        rw [hc]
        exact if_pos h1
      rw [e1, e1]
    · have e1 : processEditor st ed = ⟨c :: st.processed,
          if ed.hasToolbar || ed.hasTweetButtonParent || ed.hasEditorParent
          then c :: st.buttonsFor else st.buttonsFor⟩ := by
        unfold processEditor
        rw [hc]
        exact if_neg h1
      rw [e1]
      unfold processEditor
      rw [hc]
      exact if_pos (List.mem_cons_self c st.processed)

/-- One processEditor application adds at most one button for its container. -/
theorem processEditor_count (st : AdapterState) (ed : TwEditor) (c : ℕ)
    (hc : twContainer ed = some c) :
    (processEditor st ed).buttonsFor.count c ≤ st.buttonsFor.count c + 1 := by
  unfold processEditor
  rw [hc]
  show ((if c ∈ st.processed then st
      else ⟨c :: st.processed,
        if ed.hasToolbar || ed.hasTweetButtonParent || ed.hasEditorParent
        then c :: st.buttonsFor else st.buttonsFor⟩ :
      AdapterState)).buttonsFor.count c ≤ st.buttonsFor.count c + 1
  by_cases h1 : c ∈ st.processed
  · rw [if_pos h1]
    exact Nat.le_succ _
  · rw [if_neg h1]
    show (if ed.hasToolbar || ed.hasTweetButtonParent || ed.hasEditorParent
        then c :: st.buttonsFor else st.buttonsFor).count c ≤ st.buttonsFor.count c + 1
    split_ifs <;> simp [List.count_cons]

/-- C7: for both the shared BasePlatform.processInput routine and the Twitter
processEditor routine, a second application on the same logical container is a
no-op, and two applications starting from a container with no trigger control
leave at most one trigger control for it. -/
theorem injection_idempotent (st : AdapterState) (el : PageElem)
    (st2 : AdapterState) (ed : TwEditor) :
    processInput (processInput st el) el = processInput st el ∧
    (st.buttonsFor.count el.id = 0 →
      (processInput (processInput st el) el).buttonsFor.count el.id ≤ 1) ∧
    processEditor (processEditor st2 ed) ed = processEditor st2 ed ∧
    (∀ c, twContainer ed = some c → st2.buttonsFor.count c = 0 →
      (processEditor (processEditor st2 ed) ed).buttonsFor.count c ≤ 1) := by
  refine ⟨processInput_idem st el, ?_, processEditor_idem st2 ed, ?_⟩
  · intro h0
    rw [processInput_idem st el]
    have := processInput_count st el
    omega
  · intro c hc h0
    rw [processEditor_idem st2 ed]
    have := processEditor_count st2 ed c hc
    omega

/-- Concrete instantiation of injection_idempotent: a fresh adapter state, a
visible input with a parent, and an editor resolving to container 7. -/
theorem injection_idempotent_witness :
    processInput (processInput ⟨[], []⟩ ⟨1, 5, 5, "visible", "block", "1", true⟩)
        ⟨1, 5, 5, "visible", "block", "1", true⟩ =
      processInput ⟨[], []⟩ ⟨1, 5, 5, "visible", "block", "1", true⟩ ∧
    (processInput (processInput ⟨[], []⟩ ⟨1, 5, 5, "visible", "block", "1", true⟩)
        ⟨1, 5, 5, "visible", "block", "1", true⟩).buttonsFor.count 1 ≤ 1 ∧
    processEditor (processEditor ⟨[], []⟩ ⟨some 7, none, none, none, none, true, false, false⟩)
        ⟨some 7, none, none, none, none, true, false, false⟩ =
      processEditor ⟨[], []⟩ ⟨some 7, none, none, none, none, true, false, false⟩ ∧
    (processEditor (processEditor ⟨[], []⟩ ⟨some 7, none, none, none, none, true, false, false⟩)
        ⟨some 7, none, none, none, none, true, false, false⟩).buttonsFor.count 7 ≤ 1 := by
  have h := injection_idempotent ⟨[], []⟩ ⟨1, 5, 5, "visible", "block", "1", true⟩
    ⟨[], []⟩ ⟨some 7, none, none, none, none, true, false, false⟩
  exact ⟨h.1, h.2.1 rfl, h.2.2.1, h.2.2.2 7 rfl rfl⟩

/-- C1 counterexample: with no API key configured the service fails and
attaches the 3 auto-tone fallback suggestions, and the controller leaves the
popup in the Suggestions state showing them, not in the Error state. -/
theorem controller_failure_not_error :
    (generateRepliesSvc ⟨"youtube", none, none, none, none, none⟩ "auto"
      ApiOutcome.noApiKey).success = false ∧
    popupView (controllerGenerateReplies
        (generateRepliesSvc ⟨"youtube", none, none, none, none, none⟩ "auto"
          ApiOutcome.noApiKey)
        ⟨true, none, []⟩) =
      PopupView.suggestionsView
        (getFallbackSuggestions ⟨"youtube", none, none, none, none, none⟩ "auto") := by
  exact ⟨rfl, rfl⟩

/-- C1 (amended): every failed generation carries the tone-keyed fallback list
of exactly 3 entries, and the popup transitions Loading to Suggestions showing
that list; the Error state is reserved for a failed response with an empty
suggestion list, which the service never produces. -/
theorem controller_failure_shows_fallback (ctx : ReplyContext) (tone : String)
    (o : ApiOutcome) (p : Popup)
    (hfail : (generateRepliesSvc ctx tone o).success = false) :
    (generateRepliesSvc ctx tone o).suggestions = getFallbackSuggestions ctx tone ∧
    (getFallbackSuggestions ctx tone).length = 3 ∧
    popupView (controllerGenerateReplies (generateRepliesSvc ctx tone o) p) =
      PopupView.suggestionsView (getFallbackSuggestions ctx tone) := by
  have hsugg : (generateRepliesSvc ctx tone o).suggestions =
      getFallbackSuggestions ctx tone := by
    cases o with
    | noApiKey => rfl
    | httpError msg => rfl
    | emptyContent => rfl
    | content body =>
      by_cases hp : parseResponse body = []
      · simp only [generateRepliesSvc, if_pos hp]
      · simp only [generateRepliesSvc, if_neg hp] at hfail
        exact Bool.noConfusion hfail
  have hlen := fallback_length_three ctx tone
  have hne : (generateRepliesSvc ctx tone o).suggestions.isEmpty = false := by
    rw [hsugg]
    cases hl : getFallbackSuggestions ctx tone with
    | nil => rw [hl] at hlen; simp at hlen
    | cons a l => rfl
  refine ⟨hsugg, hlen, ?_⟩
  simp only [controllerGenerateReplies, hfail, hne, Bool.false_eq_true, if_false,
    if_true, setSuggestions, setLoading]
  simp only [popupView, jsTruthy, Bool.false_eq_true, if_false, Option.getD_none,
    List.isEmpty_nil, hne]
  rw [hsugg]

/-- Concrete instantiation of controller_failure_shows_fallback at a thrown
HTTP error with the friendly tone. -/
theorem controller_failure_shows_fallback_witness :
    (generateRepliesSvc ⟨"twitter", none, none, none, none, none⟩ "friendly"
      (ApiOutcome.httpError "API error: 500")).suggestions =
      getFallbackSuggestions ⟨"twitter", none, none, none, none, none⟩ "friendly" ∧
    (getFallbackSuggestions ⟨"twitter", none, none, none, none, none⟩ "friendly").length = 3 ∧
    popupView (controllerGenerateReplies
        (generateRepliesSvc ⟨"twitter", none, none, none, none, none⟩ "friendly"
          (ApiOutcome.httpError "API error: 500"))
        ⟨false, none, []⟩) =
      PopupView.suggestionsView
        (getFallbackSuggestions ⟨"twitter", none, none, none, none, none⟩ "friendly") :=
  controller_failure_shows_fallback ⟨"twitter", none, none, none, none, none⟩
    "friendly" (ApiOutcome.httpError "API error: 500") ⟨false, none, []⟩ rfl

end AiReply
